import Mathlib

/-!
Verification of the scheduling / time-window / download-session core of the
`hf_download_scheduler` repository, as a shallow embedding in Lean 4.

Conventions used throughout the embedding:

* Python `HH:MM` time-of-day strings are represented by their parsed
  `(hour, minute)` pair of naturals (`src/hf_downloader/services/time_window.py`
  parses them with `_time_to_minutes` / `_parse_time` before any arithmetic).
* Python statuses are `String`s, exactly as in the code.
* Wall-clock instants (`datetime.now(UTC)` values) are represented as `Int`
  seconds on an abstract timeline; `timedelta(days=d)` is `d * 86400` and
  `timedelta(hours=h)` is `h * 3600`.
* A SQLAlchemy session opened with `with self.get_session() as session:` rolls
  back any uncommitted writes when the block exits (sessionmaker is created
  with `autocommit=False`; `Session.close` rolls the open transaction back).
  Operations are therefore embedded as pure functions from the store to the
  store, where a code path that raises, or returns before `session.commit()`,
  yields the store unchanged.
* Python `raise` is embedded with `Except`; a caller's `try/except` that
  swallows the exception is embedded by collapsing both branches.
-/

namespace HFDownloader

/-! ## TimeWindow (`services/time_window.py`) -/

/-- Embedding of the `TimeWindow` dataclass.  `start_time` / `end_time` are the
parsed `(hour, minute)` pairs of the `HH:MM` strings. -/
structure TimeWindow where
  start_time : Nat × Nat
  end_time : Nat × Nat
  enabled : Bool

/-- Embedding of `TimeWindow._time_to_minutes`: `int(hours) * 60 + int(minutes)`. -/
def timeToMinutes (t : Nat × Nat) : Nat :=
  t.1 * 60 + t.2

/-- Embedding of `TimeWindow._crosses_midnight`: `end_minutes < start_minutes`. -/
def TimeWindow.crossesMidnight (tw : TimeWindow) : Bool :=
  timeToMinutes tw.end_time < timeToMinutes tw.start_time

/-- Embedding of `TimeWindow.is_current_time_in_window`, with the
`datetime.now()` read (`_get_current_time_minutes`) made an explicit
`currentMinutes` argument. -/
def TimeWindow.isCurrentTimeInWindow (tw : TimeWindow) (currentMinutes : Nat) : Bool :=
  if !tw.enabled then
    true
  else
    let startMinutes := timeToMinutes tw.start_time
    let endMinutes := timeToMinutes tw.end_time
    if tw.crossesMidnight then
      decide (currentMinutes ≥ startMinutes) || decide (currentMinutes < endMinutes)
    else
      decide (startMinutes ≤ currentMinutes) && decide (currentMinutes ≤ endMinutes)

/-- C1: for every enabled time window, if `end < start` (midnight-crossing) then
`is_current_time_in_window` holds iff `t ≥ start ∨ t < end` (end-exclusive),
otherwise iff `start ≤ t ≤ end` (end-inclusive); and for the window
`22:00`–`07:00`, `23:30` and `06:59` are inside while `07:00` and `21:59` are
outside. -/
theorem C1_time_window_membership (tw : TimeWindow) (t : Nat)
    (henabled : tw.enabled = true) :
    ((timeToMinutes tw.end_time < timeToMinutes tw.start_time →
        (tw.isCurrentTimeInWindow t = true ↔
          timeToMinutes tw.start_time ≤ t ∨ t < timeToMinutes tw.end_time)) ∧
      (¬ timeToMinutes tw.end_time < timeToMinutes tw.start_time →
        (tw.isCurrentTimeInWindow t = true ↔
          timeToMinutes tw.start_time ≤ t ∧ t ≤ timeToMinutes tw.end_time))) ∧
      ((TimeWindow.mk (22, 0) (7, 0) true).isCurrentTimeInWindow (23 * 60 + 30) = true ∧
        (TimeWindow.mk (22, 0) (7, 0) true).isCurrentTimeInWindow (6 * 60 + 59) = true ∧
        (TimeWindow.mk (22, 0) (7, 0) true).isCurrentTimeInWindow (7 * 60) = false ∧
        (TimeWindow.mk (22, 0) (7, 0) true).isCurrentTimeInWindow (21 * 60 + 59) = false) := by
  constructor
  · constructor
    · intro hcross
      simp [TimeWindow.isCurrentTimeInWindow, TimeWindow.crossesMidnight, henabled,
        hcross]
    · intro hcross
      simp [TimeWindow.isCurrentTimeInWindow, TimeWindow.crossesMidnight, henabled,
        hcross]
  · refine ⟨by decide, by decide, by decide, by decide⟩

/-- Witness for C1 at a concrete window and instant: the window `09:00`–`17:00`
is enabled, and the characterization evaluates at `t = 600` (10:00). -/
theorem C1_time_window_membership_witness :
    (TimeWindow.mk (9, 0) (17, 0) true).enabled = true ∧
      ((TimeWindow.mk (9, 0) (17, 0) true).isCurrentTimeInWindow 600 = true ↔
        timeToMinutes (9, 0) ≤ 600 ∧ 600 ≤ timeToMinutes (17, 0)) := by
  refine ⟨rfl, ?_⟩
  exact (C1_time_window_membership ⟨(9, 0), (17, 0), true⟩ 600 rfl).1.2 (by decide)

/-! ## Item (model) records and the status state machine (`models/database.py`) -/

/-- Typed view of the `model_metadata` JSON blob of a `models` row: the fields
the core reads (`priority`, `retry_count`, `last_failed_at`).  `json.dumps` of
a dict containing `"priority": p` produces text matching the SQL pattern
`'%"priority": "p"%'` used by `get_models_by_status`, so the structural field
stands for that text. -/
structure ModelMetadata where
  priority : Option String
  retry_count : Option Nat
  last_failed_at : Option Int
deriving DecidableEq, Repr

/-- Embedding of a `models` table row (`class Model`). -/
structure Model where
  id : Nat
  name : String
  status : String
  created_at : Int
  metadata : ModelMetadata
deriving DecidableEq, Repr

/-- Embedding of the `valid_transitions` dict in
`DatabaseManager.update_model_status` (including the `.get(current_status, [])`
fallback for unknown statuses). -/
def valid_transitions (current_status : String) : List String :=
  if current_status = "pending" then ["downloading", "completed"]
  else if current_status = "downloading" then ["completed", "failed"]
  else if current_status = "failed" then ["pending"]
  else if current_status = "completed" then []
  else if current_status = "paused" then ["downloading", "pending"]
  else []

/-- The `ValueError` message raised by `update_model_status` on an illegal
transition; it names both the attempted source and target. -/
def invalidTransitionMsg (current_status status : String) : String :=
  "Invalid status transition from " ++ current_status ++ " to " ++ status

/-- Embedding of `DatabaseManager.update_model_status` (the `download_path`
argument is omitted: `None` on every call path considered here, so no field is
written for it).  The result pairs the resulting store with the Python
outcome: `.ok false` for a missing model, `.ok true` for a committed update,
`.error msg` for the raised `ValueError` — in which case the store is
unchanged, since the session closes without a commit. -/
def update_model_status (models : List Model) (model_id : Nat) (status : String) :
    List Model × Except String Bool :=
  match models.find? (fun m => m.id = model_id) with
  | none => (models, Except.ok false)
  | some m =>
    if status ∈ valid_transitions m.status then
      (models.map (fun x => if x.id = model_id then { x with status := status } else x),
        Except.ok true)
    else
      (models, Except.error (invalidTransitionMsg m.status status))

/-- The five item statuses of the data model. -/
def itemStatuses : List String :=
  ["pending", "downloading", "completed", "failed", "paused"]

/-- The transition table as the claim enumerates it. -/
def claimTransitionTable : List (String × String) :=
  [("pending", "downloading"), ("pending", "completed"),
   ("downloading", "completed"), ("downloading", "failed"),
   ("failed", "pending"),
   ("paused", "downloading"), ("paused", "pending")]

/-- C2: for every pair of item statuses, if the pair is not an edge of the
transition table then `update_model_status` raises the `InvalidTransition`
error naming both the attempted source and target and leaves the store (hence
the item's status) unchanged; if the pair is in the table the update succeeds,
setting the item's status to the target. -/
theorem C2_status_transition_table (src tgt : String)
    (hsrc : src ∈ itemStatuses) (htgt : tgt ∈ itemStatuses)
    (models : List Model) (model_id : Nat) (m : Model)
    (hfind : models.find? (fun x => x.id = model_id) = some m)
    (hstatus : m.status = src) :
    ((src, tgt) ∉ claimTransitionTable →
      update_model_status models model_id tgt =
        (models, Except.error (invalidTransitionMsg src tgt))) ∧
    ((src, tgt) ∈ claimTransitionTable →
      update_model_status models model_id tgt =
        (models.map (fun x => if x.id = model_id then { x with status := tgt } else x),
          Except.ok true)) := by
  have hedge : (src, tgt) ∈ claimTransitionTable ↔ tgt ∈ valid_transitions src := by
    simp only [itemStatuses, List.mem_cons, List.not_mem_nil, or_false] at hsrc htgt
    rcases hsrc with h | h | h | h | h <;> rcases htgt with h' | h' | h' | h' | h' <;>
      subst h <;> subst h' <;> decide
  constructor
  · intro hnot
    rw [hedge] at hnot
    simp [update_model_status, hfind, hstatus, hnot]
  · intro hin
    rw [hedge] at hin
    simp [update_model_status, hfind, hstatus, hin]

/-- Witness for C2: on a one-item store holding a `completed` item, the
attempted transition `completed → downloading` is outside the table and is
rejected with the error naming both statuses. -/
theorem C2_status_transition_table_witness :
    "completed" ∈ itemStatuses ∧ "downloading" ∈ itemStatuses ∧
      update_model_status [⟨1, "m1", "completed", 0, ⟨none, none, none⟩⟩] 1 "downloading" =
        ([⟨1, "m1", "completed", 0, ⟨none, none, none⟩⟩],
          Except.error (invalidTransitionMsg "completed" "downloading")) := by
  refine ⟨by decide, by decide, ?_⟩
  exact (C2_status_transition_table "completed" "downloading" (by decide) (by decide)
    [⟨1, "m1", "completed", 0, ⟨none, none, none⟩⟩] 1
    ⟨1, "m1", "completed", 0, ⟨none, none, none⟩⟩ (by decide) rfl).1 (by decide)

/-! ## Download sessions (`models/database.py`) -/

/-- A dynamically-typed Python value as it can reach the `bytes_downloaded`
column: the code normally writes ints, but one caller passes a string
positionally (see `_cleanup_zombie_downloads`), and SQLite stores either. -/
inductive PyVal where
  | int (n : Int)
  | str (s : String)
deriving DecidableEq, Repr

/-- Embedding of a `download_sessions` table row (`class DownloadSession`). -/
structure DLSession where
  id : Nat
  model_id : Nat
  schedule_id : Option Nat
  status : String
  started_at : Int
  completed_at : Option Int
  bytes_downloaded : PyVal
  total_bytes : Option Int
  error_message : Option String
  retry_count : Nat
  metadata : Option String
deriving DecidableEq, Repr

/-- Embedding of `DatabaseManager.update_download_session`.  Positional
parameter order matches the Python signature
`(session_id, status, bytes_downloaded=None, total_bytes=None,
error_message=None)`; `now` makes the `datetime.now(UTC)` read explicit.
`if error_message:` is Python truthiness, so an empty string is not recorded.
Returns the updated store and the method's boolean result. -/
def update_download_session (sessions : List DLSession) (session_id : Nat)
    (status : String) (bytes_downloaded : Option PyVal) (total_bytes : Option Int)
    (error_message : Option String) (now : Int) : List DLSession × Bool :=
  match sessions.find? (fun s => s.id = session_id) with
  | none => (sessions, false)
  | some _ =>
    (sessions.map (fun s =>
      if s.id = session_id then
        let s := { s with status := status }
        let s := match bytes_downloaded with
          | some b => { s with bytes_downloaded := b }
          | none => s
        let s := match total_bytes with
          | some t => { s with total_bytes := some t }
          | none => s
        let s := match error_message with
          | some msg => if msg ≠ "" then { s with error_message := some msg } else s
          | none => s
        if status ∈ ["completed", "failed", "cancelled"] then
          { s with completed_at := some now }
        else s
      else s), true)

/-- A concrete session used in counterexamples: completed at time 100. -/
def sessionCompletedAt100 : DLSession :=
  { id := 1, model_id := 1, schedule_id := none, status := "completed",
    started_at := 0, completed_at := some 100,
    bytes_downloaded := PyVal.int 5, total_bytes := some 5,
    error_message := none, retry_count := 0, metadata := none }

/-- C5 is false as stated: repeating the terminal `completed` transition on an
already-completed session raises no error, but it overwrites `completed_at`
with the time of the second call.  Here a session whose first completion set
`completed_at = 100` is completed again at time `200`: the call succeeds and
`completed_at` becomes `200`, not the value set by the first call. -/
theorem C5_terminal_not_idempotent_counterexample :
    (update_download_session [sessionCompletedAt100] 1 "completed"
        none none none 200).2 = true ∧
      ((update_download_session [sessionCompletedAt100] 1 "completed"
          none none none 200).1.map (fun s => s.completed_at)) = [some 200] ∧
      sessionCompletedAt100.completed_at = some 100 := by
  refine ⟨rfl, ?_, rfl⟩
  decide

/-- C5 (amended): re-applying a terminal transition to a session already in
that terminal state produces no error (the call returns `True`), but it is not
a no-op on `completed_at`: `completed_at` is unconditionally overwritten with
the current time of the repeated call, so it keeps the first call's value only
when the clock has not advanced. -/
theorem C5_terminal_transition_repeat (sessions : List DLSession) (session_id : Nat)
    (s : DLSession) (hfind : sessions.find? (fun x => x.id = session_id) = some s)
    (tgt : String) (hterm : tgt ∈ ["completed", "failed", "cancelled"]) (now : Int) :
    (update_download_session sessions session_id tgt none none none now).2 = true ∧
      ∀ x ∈ (update_download_session sessions session_id tgt none none none now).1,
        x.id = session_id → x.completed_at = some now := by
  constructor
  · simp [update_download_session, hfind]
  · intro x hx hid
    simp only [update_download_session, hfind, List.mem_map] at hx
    obtain ⟨y, hy, hxy⟩ := hx
    by_cases h : y.id = session_id
    · simp only [h, if_true, hterm, if_pos] at hxy
      simp [← hxy, hterm]
    · rw [if_neg h] at hxy
      exact absurd (hxy ▸ hid) h

/-- Witness for C5 (amended): completing the already-completed concrete session
again at time 200 returns `True` and sets its `completed_at` to 200. -/
theorem C5_terminal_transition_repeat_witness :
    (update_download_session [sessionCompletedAt100] 1 "completed"
        none none none 200).2 = true ∧
      ∀ x ∈ (update_download_session [sessionCompletedAt100] 1 "completed"
          none none none 200).1,
        x.id = 1 → x.completed_at = some 200 :=
  C5_terminal_transition_repeat [sessionCompletedAt100] 1 sessionCompletedAt100
    (by decide) "completed" (by decide) 200

/-- Embedding of Python `new_schedule_id or failed_session.schedule_id`
(`or` falls through on falsy values: `None` and `0`). -/
def pyOrScheduleId (new_schedule_id fallback : Option Nat) : Option Nat :=
  match new_schedule_id with
  | some n => if n = 0 then fallback else some n
  | none => fallback

/-- The `DownloadSession(...)` constructor call inside
`DatabaseManager.retry_failed_session`: `model_id` is copied, `schedule_id` is
`new_schedule_id or failed_session.schedule_id`, status is `"started"`,
`retry_count` is incremented, `total_bytes` is copied, and `model_metadata` is
copied when truthy; the remaining columns take their table defaults
(`bytes_downloaded = 0`, `started_at = now`, the rest `NULL`). -/
def mkRetrySession (failed_session : DLSession) (new_schedule_id : Option Nat)
    (new_id : Nat) (now : Int) : DLSession where
  id := new_id
  model_id := failed_session.model_id
  schedule_id := pyOrScheduleId new_schedule_id failed_session.schedule_id
  status := "started"
  started_at := now
  completed_at := none
  bytes_downloaded := PyVal.int 0
  total_bytes := failed_session.total_bytes
  error_message := none
  retry_count := failed_session.retry_count + 1
  metadata := match failed_session.metadata with
    | some s => if s ≠ "" then some s else none
    | none => none

/-- Embedding of `DatabaseManager.retry_failed_session`.  `new_id` stands for
the autoincremented primary key of the inserted row and `now` for the
`started_at` column default.  The Python method returns `None` (creating
nothing) when the session is missing or its status is not `"failed"`; the
metadata copy is guarded by `if failed_session.model_metadata:` (truthiness,
so an empty string is not copied). -/
def retry_failed_session (sessions : List DLSession) (session_id : Nat)
    (new_schedule_id : Option Nat) (new_id : Nat) (now : Int) :
    List DLSession × Option DLSession :=
  match sessions.find? (fun s => s.id = session_id) with
  | none => (sessions, none)
  | some failed_session =>
    if failed_session.status ≠ "failed" then (sessions, none)
    else
      let new_session := mkRetrySession failed_session new_schedule_id new_id now
      (sessions ++ [new_session], some new_session)

/-- C7: retrying a session whose status is `failed` with `retry_count = n`
creates a new session with `retry_count = n + 1`, the same `item_id`, status
`started`, `total_bytes` and (truthy) metadata copied from the source, and the
source rows are left untouched (the new row is only appended); retrying a
session whose status is not `failed` fails (the method returns `None`) and
creates no new session. -/
theorem C7_retry_lineage (sessions : List DLSession) (session_id : Nat)
    (new_schedule_id : Option Nat) (new_id : Nat) (now : Int) (s : DLSession)
    (hfind : sessions.find? (fun x => x.id = session_id) = some s) :
    (s.status = "failed" →
      ∃ ns, retry_failed_session sessions session_id new_schedule_id new_id now =
          (sessions ++ [ns], some ns) ∧
        ns.retry_count = s.retry_count + 1 ∧
        ns.model_id = s.model_id ∧
        ns.status = "started" ∧
        ns.total_bytes = s.total_bytes ∧
        ns.metadata = (match s.metadata with
          | some t => if t ≠ "" then some t else none
          | none => none)) ∧
    (s.status ≠ "failed" →
      retry_failed_session sessions session_id new_schedule_id new_id now =
        (sessions, none)) := by
  constructor
  · intro hfailed
    refine ⟨mkRetrySession s new_schedule_id new_id now, ?_, rfl, rfl, rfl, rfl, rfl⟩
    simp [retry_failed_session, hfind, hfailed]
  · intro hnot
    simp [retry_failed_session, hfind, hnot]

/-- Witness for C7: retrying a concrete `failed` session with `retry_count = 2`
appends a new session with `retry_count = 3`, the same `model_id = 7` and
status `started`, leaving the original row in place with status `failed`. -/
theorem C7_retry_lineage_witness :
    ∃ ns, retry_failed_session
        [⟨4, 7, some 1, "failed", 0, some 50, PyVal.int 10, some 99, some "boom", 2, none⟩]
        4 none 5 60 =
        ([⟨4, 7, some 1, "failed", 0, some 50, PyVal.int 10, some 99, some "boom", 2, none⟩]
          ++ [ns], some ns) ∧
      ns.retry_count = 2 + 1 ∧ ns.model_id = 7 ∧ ns.status = "started" ∧
      ns.total_bytes = some 99 ∧
      ns.metadata = (match (none : Option String) with
        | some t => if t ≠ "" then some t else none
        | none => none) :=
  (C7_retry_lineage
    [⟨4, 7, some 1, "failed", 0, some 50, PyVal.int 10, some 99, some "boom", 2, none⟩]
    4 none 5 60
    ⟨4, 7, some 1, "failed", 0, some 50, PyVal.int 10, some 99, some "boom", 2, none⟩
    (by decide)).1 rfl

/-- Embedding of `DatabaseManager.cleanup_old_sessions`: the cutoff is
`now - timedelta(days=days_to_keep)`; the query collects sessions with
`started_at < cutoff` and status in `{completed, failed, cancelled}`, deletes
exactly those rows, and the method returns their count (wrapped in a success
dict; the embedding returns the remaining store and `deleted_count`).  The
method is total — the zero-match case commits an empty deletion and still
returns a count of 0. -/
def cleanup_old_sessions (sessions : List DLSession) (now : Int) (days_to_keep : Int) :
    List DLSession × Nat :=
  let cutoff := now - days_to_keep * 86400
  let isOld := fun (s : DLSession) =>
    decide (s.started_at < cutoff) && decide (s.status ∈ ["completed", "failed", "cancelled"])
  ((sessions.filter (fun s => !isOld s)), (sessions.filter isOld).length)

/-- C8: cleanup deletes exactly the sessions whose `started_at` is older than
the cutoff and whose status is terminal (`completed`/`failed`/`cancelled`):
a session survives iff it is not both old and terminal, sessions in an active
status always survive regardless of age, the returned count is the number of
matching sessions, and on zero matches the store is unchanged and the count is
0 (no exception — the function is total). -/
theorem C8_cleanup_old_sessions (sessions : List DLSession) (now days_to_keep : Int) :
    (∀ s, s ∈ (cleanup_old_sessions sessions now days_to_keep).1 ↔
        s ∈ sessions ∧
          ¬(s.started_at < now - days_to_keep * 86400 ∧
            s.status ∈ ["completed", "failed", "cancelled"])) ∧
    (∀ s ∈ sessions, s.status ∈ ["started", "in_progress", "paused"] →
        s ∈ (cleanup_old_sessions sessions now days_to_keep).1) ∧
    (cleanup_old_sessions sessions now days_to_keep).2 =
      (sessions.filter (fun s =>
        decide (s.started_at < now - days_to_keep * 86400) &&
          decide (s.status ∈ ["completed", "failed", "cancelled"]))).length ∧
    ((∀ s ∈ sessions,
        ¬(s.started_at < now - days_to_keep * 86400 ∧
          s.status ∈ ["completed", "failed", "cancelled"])) →
      cleanup_old_sessions sessions now days_to_keep = (sessions, 0)) := by
  refine ⟨?_, ?_, rfl, ?_⟩
  · intro s
    simp [cleanup_old_sessions, List.mem_filter, and_comm, Decidable.not_and_iff_or_not,
      or_comm]
    tauto
  · intro s hs hactive
    simp only [cleanup_old_sessions, List.mem_filter]
    refine ⟨hs, ?_⟩
    have : s.status ∉ ["completed", "failed", "cancelled"] := by
      simp only [List.mem_cons, List.not_mem_nil, or_false] at hactive ⊢
      rcases hactive with h | h | h <;> simp [h]
    simp [this]
  · intro hnone
    simp only [cleanup_old_sessions, Prod.mk.injEq]
    constructor
    · rw [List.filter_eq_self]
      intro s hs
      have h := hnone s hs
      rcases Decidable.em (s.started_at < now - days_to_keep * 86400) with hlt | hlt
      · have hst : s.status ∉ ["completed", "failed", "cancelled"] :=
          fun hmem => h ⟨hlt, hmem⟩
        simp [hst]
      · simp [hlt]
    · rw [List.length_eq_zero, List.filter_eq_nil_iff]
      intro s hs
      have h := hnone s hs
      rcases Decidable.em (s.started_at < now - days_to_keep * 86400) with hlt | hlt
      · have hst : s.status ∉ ["completed", "failed", "cancelled"] :=
          fun hmem => h ⟨hlt, hmem⟩
        simp [hst]
      · simp [hlt]

/-- Witness for C8 at Scenario D: with `days_to_keep = 30`, a `completed`
session aged 40 days is deleted while an `in_progress` session of the same age
survives; the count returned is 1 (obtained from the main theorem's
characterization applied at this concrete store). -/
theorem C8_cleanup_old_sessions_witness :
    (⟨2, 1, none, "in_progress", 3456000 - 40 * 86400, none, PyVal.int 0, none, none, 0, none⟩ ∈
        (cleanup_old_sessions
          [⟨1, 1, none, "completed", 3456000 - 40 * 86400, some 3456000, PyVal.int 9,
              none, none, 0, none⟩,
            ⟨2, 1, none, "in_progress", 3456000 - 40 * 86400, none, PyVal.int 0,
              none, none, 0, none⟩] 3456000 30).1) ∧
      (cleanup_old_sessions
          [⟨1, 1, none, "completed", 3456000 - 40 * 86400, some 3456000, PyVal.int 9,
              none, none, 0, none⟩,
            ⟨2, 1, none, "in_progress", 3456000 - 40 * 86400, none, PyVal.int 0,
              none, none, 0, none⟩] 3456000 30).2 = 1 := by
  constructor
  · exact (C8_cleanup_old_sessions
      [⟨1, 1, none, "completed", 3456000 - 40 * 86400, some 3456000, PyVal.int 9,
          none, none, 0, none⟩,
        ⟨2, 1, none, "in_progress", 3456000 - 40 * 86400, none, PyVal.int 0,
          none, none, 0, none⟩] 3456000 30).2.1
      ⟨2, 1, none, "in_progress", 3456000 - 40 * 86400, none, PyVal.int 0,
        none, none, 0, none⟩ (by decide) (by decide)
  · rw [(C8_cleanup_old_sessions _ 3456000 30).2.2.1]
    decide

/-! ## Schedule configurations (`models/database.py`) -/

/-- Embedding of a `schedule_configurations` table row
(`class ScheduleConfiguration`); the `time` columns use the parsed
`(hour, minute)` representation of the `HH:MM` strings.  The `enabled` column
has `default=True`. -/
structure Schedule where
  id : Nat
  name : String
  type : String
  time : Nat × Nat
  day_of_week : Option Nat
  enabled : Bool
  max_concurrent_downloads : Nat
  time_window_enabled : Bool
  time_window_start : Option (Nat × Nat)
  time_window_end : Option (Nat × Nat)
  created_at : Int
deriving DecidableEq, Repr

/-- Embedding of `DatabaseManager._validate_time_format` on a parsed
`(hour, minute)` pair: hour in `00-23`, minute in `00-59`. -/
def validTimePair (t : Nat × Nat) : Bool :=
  decide (t.1 ≤ 23) && decide (t.2 ≤ 59)

/-- Embedding of `DatabaseManager.create_schedule`.  `new_id` stands for the
autoincremented primary key.  The ORM object is built with the column default
`enabled = True`; the time-window validation raises before `session.add`, so
an invalid call leaves the store unchanged. -/
def create_schedule (schedules : List Schedule) (new_id : Nat)
    (name type : String) (time : Nat × Nat) (day_of_week : Option Nat)
    (max_concurrent_downloads : Nat) (time_window_enabled : Bool)
    (time_window_start time_window_end : Option (Nat × Nat)) (now : Int) :
    List Schedule × Except String Schedule :=
  let schedule : Schedule :=
    { id := new_id, name := name, type := type, time := time,
      day_of_week := day_of_week, enabled := true,
      max_concurrent_downloads := max_concurrent_downloads,
      time_window_enabled := time_window_enabled,
      time_window_start := time_window_start,
      time_window_end := time_window_end, created_at := now }
  if time_window_enabled then
    match time_window_start, time_window_end with
    | some s, some e =>
      if !validTimePair s then (schedules, Except.error "invalid time format")
      else if !validTimePair e then (schedules, Except.error "invalid time format")
      else (schedules ++ [schedule], Except.ok schedule)
    | _, _ =>
      (schedules,
        Except.error
          "Both time_window_start and time_window_end must be specified when time_window_enabled is True")
  else (schedules ++ [schedule], Except.ok schedule)

/-- The `schedule.enabled = True` write of `enable_schedule` applied to the
first row matching the id (SQLAlchemy `.first()`). -/
def setEnabledFirst : List Schedule → Nat → List Schedule
  | [], _ => []
  | s :: rest, sid =>
    if s.id = sid then { s with enabled := true } :: rest
    else s :: setEnabledFirst rest sid

/-- Embedding of `DatabaseManager.enable_schedule`: inside one transaction it
first sets `enabled = False` on every row, then looks up the given id; only
the found branch reaches `session.commit()`.  If the id matches no schedule
the method returns `False` and the session closes without committing, rolling
the blanket disable back — the store is unchanged in that case. -/
def enable_schedule (schedules : List Schedule) (schedule_id : Nat) :
    List Schedule × Bool :=
  let disabled := schedules.map (fun s => { s with enabled := false })
  match disabled.find? (fun s => s.id = schedule_id) with
  | some _ => (setEnabledFirst disabled schedule_id, true)
  | none => (schedules, false)

/-- Number of schedules with `enabled = true` in the store. -/
def countEnabled (schedules : List Schedule) : Nat :=
  (schedules.filter (fun s => s.enabled)).length

theorem filter_enabled_map_disable (l : List Schedule) :
    (l.map (fun s => { s with enabled := false })).filter (fun s => s.enabled) = [] := by
  induction l with
  | nil => rfl
  | cons a l ih => simp [ih]

theorem countEnabled_setEnabledFirst (l : List Schedule) (sid : Nat)
    (h : ((l.map (fun s => { s with enabled := false })).find?
        (fun s => s.id = sid)).isSome = true) :
    countEnabled (setEnabledFirst
      (l.map (fun s => { s with enabled := false })) sid) = 1 := by
  induction l with
  | nil => simp at h
  | cons a l ih =>
    simp only [List.map_cons, setEnabledFirst]
    by_cases hid : a.id = sid
    · simp only [hid, if_pos rfl]
      simp [countEnabled, filter_enabled_map_disable]
    · rw [if_neg hid]
      simp only [List.map_cons, List.find?_cons, hid, decide_eq_true_eq,
        if_neg hid] at h
      have h' := ih (by simpa [hid] using h)
      simpa [countEnabled, hid] using h'

/-- C6 is false as stated: the "at most one enabled schedule" invariant does
not survive `create_schedule`.  Starting from an empty store, creating one
schedule leaves it enabled (the column default), and creating a second while
the first is still enabled yields a store with two enabled schedules. -/
theorem C6_create_schedule_counterexample :
    countEnabled
        (create_schedule
          (create_schedule [] 1 "a" "daily" (1, 0) none 1 false none none 0).1
          2 "b" "daily" (2, 0) none 1 false none none 0).1 = 2 := by
  decide

/-- C6 (amended): `enable_schedule` on an existing id does uphold the
invariant — it atomically disables all schedules and re-enables exactly the
requested one, so afterwards exactly one schedule is enabled.  But
`create_schedule` builds the new row with the column default `enabled = True`
and disables nothing, so creating a schedule while another is enabled leaves
more than one enabled schedule. -/
theorem C6_enable_schedule_unique (schedules : List Schedule) (schedule_id : Nat)
    (h : ((schedules.map (fun s => { s with enabled := false })).find?
        (fun s => s.id = schedule_id)).isSome = true) :
    countEnabled (enable_schedule schedules schedule_id).1 = 1 := by
  simp only [enable_schedule]
  obtain ⟨s, hs⟩ := Option.isSome_iff_exists.mp h
  rw [hs]
  exact countEnabled_setEnabledFirst schedules schedule_id h

/-- Witness for C6 (amended): enabling schedule 1 in a two-schedule store where
both rows are enabled leaves exactly one enabled schedule. -/
theorem C6_enable_schedule_unique_witness :
    countEnabled
        (enable_schedule
          [⟨1, "a", "daily", (1, 0), none, true, 1, false, none, none, 0⟩,
            ⟨2, "b", "daily", (2, 0), none, true, 1, false, none, none, 0⟩] 1).1 = 1 :=
  C6_enable_schedule_unique
    [⟨1, "a", "daily", (1, 0), none, true, 1, false, none, none, 0⟩,
      ⟨2, "b", "daily", (2, 0), none, true, 1, false, none, none, 0⟩] 1 (by decide)

/-- C10 is false as stated: `enable_schedule` on an unknown id returns `False`,
but the blanket disable is not persisted — the only `session.commit()` sits in
the found branch, so closing the session rolls the disable back.  On a store
whose schedule 1 is enabled, `enable_schedule 99` returns `False` and leaves
the store unchanged: schedule 1 is still the active schedule, rather than
there being no active schedule at all. -/
theorem C10_enable_schedule_missing_counterexample :
    enable_schedule [⟨1, "a", "daily", (1, 0), none, true, 1, false, none, none, 0⟩] 99 =
        ([⟨1, "a", "daily", (1, 0), none, true, 1, false, none, none, 0⟩], false) ∧
      countEnabled
        (enable_schedule
          [⟨1, "a", "daily", (1, 0), none, true, 1, false, none, none, 0⟩] 99).1 = 1 := by
  constructor <;> decide

/-- C10 (amended): calling `enable_schedule` with an id matching no schedule
returns `False` and leaves the store exactly as it was — the uncommitted
disable-all is rolled back when the session closes, so any pre-existing active
schedule remains enabled. -/
theorem C10_enable_schedule_missing (schedules : List Schedule) (schedule_id : Nat)
    (h : (schedules.map (fun s => { s with enabled := false })).find?
        (fun s => s.id = schedule_id) = none) :
    enable_schedule schedules schedule_id = (schedules, false) := by
  simp [enable_schedule, h]

/-- Witness for C10 (amended): with a single enabled schedule of id 1, enabling
id 99 returns `False` and the store is unchanged. -/
theorem C10_enable_schedule_missing_witness :
    enable_schedule
        [⟨1, "a", "daily", (1, 0), none, true, 1, false, none, none, 0⟩] 99 =
      ([⟨1, "a", "daily", (1, 0), none, true, 1, false, none, none, 0⟩], false) :=
  C10_enable_schedule_missing
    [⟨1, "a", "daily", (1, 0), none, true, 1, false, none, none, 0⟩] 99 (by decide)

/-! ## Status queries and the startup zombie cleanup
(`models/database.py`, `services/integration_service.py`) -/

/-- The `CASE` expression of `get_models_by_status`: metadata text containing
`"priority": "high"` orders as 1, `"medium"` as 2, `"low"` as 3, anything else
(including missing metadata) defaults to 2. -/
def priorityCaseOrder (m : Model) : Nat :=
  match m.metadata.priority with
  | some "high" => 1
  | some "medium" => 2
  | some "low" => 3
  | _ => 2

/-- Sort key of `ORDER BY priority_order, created_at`. -/
def priorityKey (m : Model) : Nat × Int :=
  (priorityCaseOrder m, m.created_at)

/-- Strict lexicographic comparison on the sort key. -/
def keyLT (a b : Nat × Int) : Bool :=
  decide (a.1 < b.1) || (decide (a.1 = b.1) && decide (a.2 < b.2))

/-- Stable insertion used to model the SQL `ORDER BY`. -/
def insertByKey (m : Model) : List Model → List Model
  | [] => [m]
  | x :: xs =>
    if keyLT (priorityKey x) (priorityKey m) then x :: insertByKey m xs
    else m :: x :: xs

/-- Stable sort by `(priority_order, created_at)` modelling the SQL
`ORDER BY`. -/
def sortModels : List Model → List Model
  | [] => []
  | x :: xs => insertByKey x (sortModels xs)

/-- Embedding of `DatabaseManager.get_models_by_status`: all models with the
given status, ordered by the priority `CASE` expression and `created_at`. -/
def get_models_by_status (models : List Model) (status : String) : List Model :=
  sortModels (models.filter (fun m => m.status = status))

/-- Embedding of `DatabaseManager.get_active_download_sessions`: sessions with
status in `{started, in_progress, paused}`. -/
def get_active_download_sessions (sessions : List DLSession) : List DLSession :=
  sessions.filter (fun s => s.status ∈ ["started", "in_progress", "paused"])

/-- The inner session loop of `_cleanup_zombie_downloads`: each active session
of the zombie model is updated with
`update_download_session(session.id, "failed", "Zombie download detected on startup")`.
The message is the THIRD positional argument, i.e. it is passed as
`bytes_downloaded`, not as `error_message`. -/
def failZombieSessions (sessions : List DLSession) (active_sessions : List DLSession)
    (mid : Nat) (now : Int) : List DLSession :=
  active_sessions.foldl
    (fun ss s =>
      if s.model_id = mid then
        (update_download_session ss s.id "failed"
          (some (PyVal.str "Zombie download detected on startup")) none none now).1
      else ss)
    sessions

/-- The `for model in downloading_models:` loop of `_cleanup_zombie_downloads`.
A `ValueError` raised by `update_model_status` escapes the loop (there is no
per-model handler) and is swallowed by the method's outer `except`, so the
loop stops and the state reached so far is kept. -/
def cleanupZombieLoop (active_names : List String) (active_sessions : List DLSession)
    (active_ids : List Nat) (now : Int) :
    List Model → List Model → List DLSession → List Model × List DLSession
  | [], models, sessions => (models, sessions)
  | m :: rest, models, sessions =>
    if m.name ∈ active_names then
      cleanupZombieLoop active_names active_sessions active_ids now rest models sessions
    else
      let sessions' :=
        if m.id ∈ active_ids then failZombieSessions sessions active_sessions m.id now
        else sessions
      match update_model_status models m.id "pending" with
      | (models', Except.ok _) =>
        cleanupZombieLoop active_names active_sessions active_ids now rest models' sessions'
      | (models', Except.error _) => (models', sessions')

/-- Embedding of `IntegrationService._cleanup_zombie_downloads`:
`active_names` are the keys of the downloader's in-memory `_active_downloads`
dict (the live workers).  The follow-up `sync_db_status_to_json_immediate`
call is not modelled because the loop never reaches it: `update_model_status`
is called with target `pending` on a model whose status is `downloading`, a
transition outside `valid_transitions`. -/
def cleanup_zombie_downloads (models : List Model) (sessions : List DLSession)
    (active_names : List String) (now : Int) : List Model × List DLSession :=
  let downloading := get_models_by_status models "downloading"
  if downloading.isEmpty then (models, sessions)
  else
    let active_sessions := get_active_download_sessions sessions
    let active_ids := active_sessions.map (fun s => s.model_id)
    cleanupZombieLoop active_names active_sessions active_ids now
      downloading models sessions

/-- C4 fails on the code in two ways, shown at a store with one `downloading`
model (no live worker) owning one `started` session.  First, the cleanup
invokes `update_model_status(model.id, "pending")` on a `downloading` model,
but `downloading → pending` is not in `valid_transitions`, so the call raises
and the outer handler swallows it: the model is left in `downloading`, not
reset to `pending`.  Second, the synthetic message is passed as the third
positional argument of `update_download_session`, which is `bytes_downloaded`:
the session does get status `failed`, but its `error_message` stays `None`
while the message string lands in `bytes_downloaded`. -/
theorem C4_zombie_cleanup_failing_input :
    cleanup_zombie_downloads
        [⟨1, "m1", "downloading", 0, ⟨none, none, none⟩⟩]
        [⟨1, 1, none, "started", 0, none, PyVal.int 0, none, none, 0, none⟩]
        [] 10 =
      ([⟨1, "m1", "downloading", 0, ⟨none, none, none⟩⟩],
        [⟨1, 1, none, "failed", 0, some 10,
          PyVal.str "Zombie download detected on startup", none, none, 0, none⟩]) := by
  rfl

/-! ## Eligible-item selection and the scheduler tick
(`services/integration_service.py`, `services/scheduler.py`) -/

/-- The retry-policy slice of the application `Config` (`core/config.py`). -/
structure Config where
  retry_failed_models : Bool
  max_failed_retries : Nat
  retry_reset_hours : Nat
deriving DecidableEq, Repr

/-- A record of the external `models.json` desired list as the sync and
selection code reads it: `name` (a missing name is modelled as the falsy
`""`), optional `status`, `enabled` defaulting to `True`, optional
`priority`, and `force_reset` defaulting to `False`. -/
structure JsonModel where
  name : String
  status : Option String
  enabled : Option Bool
  priority : Option String
  force_reset : Bool
deriving DecidableEq, Repr

/-- Python `d.get(key, default)` for an optional string field: the default
applies only when the key is absent (an empty present value is returned
as-is). -/
def jsonGet (v : Option String) (default : String) : String :=
  match v with
  | some s => s
  | none => default

/-- The `model_dict` built per item by
`IntegrationService.get_enabled_pending_models`. -/
structure PendingEntry where
  id : Nat
  name : String
  status : String
  priority : String
  retry_attempt : Option Nat
  max_retries : Option Nat
deriving DecidableEq, Repr

/-- The retry-eligibility count of `get_enabled_pending_models`: the stored
`retry_count`, treated as reset to 0 when `now - last_failed_at` exceeds
`retry_reset_hours` (hours are `3600` seconds on the embedded timeline). -/
def effectiveRetryCount (cfg : Config) (m : Model) (now : Int) : Nat :=
  let rc := m.metadata.retry_count.getD 0
  match m.metadata.last_failed_at with
  | some t => if now - t > (cfg.retry_reset_hours : Int) * 3600 then 0 else rc
  | none => rc

/-- The `model_dict` construction of `get_enabled_pending_models`: priority
defaults to `"medium"`; failed models additionally carry the 1-based
`retry_attempt` (from the raw stored `retry_count`) and the configured
maximum. -/
def mkPendingEntry (cfg : Config) (m : Model) : PendingEntry where
  id := m.id
  name := m.name
  status := m.status
  priority := m.metadata.priority.getD "medium"
  retry_attempt :=
    if m.status = "failed" then some (m.metadata.retry_count.getD 0 + 1) else none
  max_retries := if m.status = "failed" then some cfg.max_failed_retries else none

/-- Embedding of `IntegrationService.get_enabled_pending_models`: pending
models, then (when retry is enabled) retry-eligible failed models —
`all_models = pending_models + failed_models_to_retry` is list concatenation,
each half carrying the ordering of its own `get_models_by_status` query —
filtered to names marked enabled in `models.json`, each converted to its
`model_dict`. -/
def get_enabled_pending_models (cfg : Config) (models : List Model)
    (json_models : List JsonModel) (now : Int) : List PendingEntry :=
  let pending_models := get_models_by_status models "pending"
  let failed_models_to_retry :=
    if cfg.retry_failed_models then
      (get_models_by_status models "failed").filter
        (fun m => effectiveRetryCount cfg m now < cfg.max_failed_retries)
    else []
  let enabled_model_names :=
    (json_models.filter (fun jm => jm.enabled.getD true)).map (fun jm => jm.name)
  ((pending_models ++ failed_models_to_retry).filter
      (fun m => m.name ∈ enabled_model_names)).map
    (mkPendingEntry cfg)

/-- A value reaching the scheduler's per-item loops: either an ORM `Model`
object or a plain `dict`.  Both branches of
`SchedulerService.get_pending_models` build `dict`s. -/
inductive SchedItem where
  | obj (m : Model)
  | dict (d : PendingEntry)
deriving DecidableEq, Repr

/-- Python attribute access `model.name`: succeeds on an ORM object, raises
`AttributeError` on a `dict` (dicts expose their keys by subscript, not as
attributes). -/
def getattrName : SchedItem → Except String String
  | SchedItem.obj m => Except.ok m.name
  | SchedItem.dict _ => Except.error "dict object has no attribute name"

/-- Embedding of `SchedulerService.get_pending_models` on the integration-service
path: it returns the `model_dict` list of `get_enabled_pending_models`
unchanged — a list of `dict`s. -/
def get_pending_models (cfg : Config) (models : List Model)
    (json_models : List JsonModel) (now : Int) : List SchedItem :=
  (get_enabled_pending_models cfg models json_models now).map SchedItem.dict

/-- Embedding of `DatabaseManager.get_active_schedule`. -/
def get_active_schedule (schedules : List Schedule) : Option Schedule :=
  schedules.find? (fun s => s.enabled)

/-- Embedding of `SchedulerService._execute_scheduled_download`, returning the
names for which `downloader_service.download_model(model.name, ...)` is
reached.  The schedule/time-window gates mirror the code; the logging loop
`for i, model in enumerate(pending_models, 1): ... model.name` runs before any
download is started and is covered only by the method's outer `except`, so an
`AttributeError` there aborts the whole tick with nothing started; in the
start loop each `model.name` failure is swallowed per item. -/
def execute_scheduled_download (schedules : List Schedule) (cfg : Config)
    (models : List Model) (json_models : List JsonModel) (now : Int)
    (nowMinutes : Nat) : List String :=
  match get_active_schedule schedules with
  | none => []
  | some schedule_config =>
    if !schedule_config.enabled then []
    else
      let windowOk :=
        if schedule_config.time_window_enabled then
          (TimeWindow.mk (schedule_config.time_window_start.getD (22, 0))
            (schedule_config.time_window_end.getD (7, 0))
            true).isCurrentTimeInWindow nowMinutes
        else true
      if !windowOk then []
      else
        let pending_models := get_pending_models cfg models json_models now
        if pending_models.isEmpty then []
        else if pending_models.any (fun it =>
            match getattrName it with
            | Except.ok _ => false
            | Except.error _ => true) then
          []
        else
          let max_downloads :=
            min schedule_config.max_concurrent_downloads pending_models.length
          (pending_models.take max_downloads).filterMap
            (fun it => (getattrName it).toOption)

/-- C3 fails on the code.  With one enabled pending model, an active schedule
with `max_concurrent_downloads = 1` and no time-window restriction, the claim
demands that the tick start `min(1, 1) = 1` download; the code's tick builds
one eligible `model_dict`, then its logging loop evaluates `model.name` on
that dict, raises `AttributeError`, and the outer handler abandons the tick —
zero downloads are started.  (Independently, the eligible list is the
concatenation of the pending query and the failed-retry query, not one
priority sort across the whole set.) -/
theorem C3_tick_starts_nothing :
    (get_enabled_pending_models ⟨false, 3, 24⟩
        [⟨1, "m1", "pending", 0, ⟨none, none, none⟩⟩]
        [⟨"m1", some "pending", some true, none, false⟩] 0).length = 1 ∧
      execute_scheduled_download
        [⟨1, "s", "daily", (23, 0), none, true, 1, false, none, none, 0⟩]
        ⟨false, 3, 24⟩
        [⟨1, "m1", "pending", 0, ⟨none, none, none⟩⟩]
        [⟨"m1", some "pending", some true, none, false⟩] 0 0 = [] := by
  constructor <;> rfl

/-! ## Reconciliation (`services/model_sync.py`) -/

/-- Counters accumulated by `ModelSyncService.sync_models_from_json_to_db`. -/
structure JsonToDbResult where
  total_models : Nat
  added : Nat
  updated : Nat
  skipped : Nat
  errors : List String
deriving DecidableEq, Repr

/-- Counters accumulated by `ModelSyncService.sync_db_status_to_json`. -/
structure DbToJsonResult where
  total_models : Nat
  updated : Nat
  unchanged : Nat
  errors : List String
deriving DecidableEq, Repr

/-- Embedding of `DatabaseManager.get_model_by_name` (names are unique in the
`models` table, so the first match is the match). -/
def get_model_by_name (models : List Model) (name : String) : Option Model :=
  models.find? (fun m => m.name = name)

/-- Python truthiness of `json_model.get("status")`: false when the key is
absent or the value is the empty string. -/
def truthyStatus (jm : JsonModel) : Bool :=
  match jm.status with
  | some s => s ≠ ""
  | none => false

/-- The per-model loop of `sync_models_from_json_to_db`, threading the store,
the autoincrement counter and the result counters.  Branches, in source
order: missing name → error; model absent → create (`added`); empty/absent
JSON status → skip; DB status `pending`/`failed` with `force_reset` →
non-validating update to `pending` with refreshed priority (`updated`); DB
status `completed`/`downloading` → skip; `pending`/`failed` with JSON
`pending` → skip; fallback → skip. -/
def syncJsonToDbLoop :
    List JsonModel → List Model → Nat → Int → JsonToDbResult →
      List Model × Nat × JsonToDbResult
  | [], models, next_id, _, acc => (models, next_id, acc)
  | jm :: rest, models, next_id, now, acc =>
    if jm.name = "" then
      syncJsonToDbLoop rest models next_id now
        { acc with errors := acc.errors ++ ["Model missing name field"] }
    else
      match get_model_by_name models jm.name with
      | none =>
        let status := jsonGet jm.status "pending"
        let p := jsonGet jm.priority "medium"
        let newModel : Model :=
          { id := next_id, name := jm.name, status := status, created_at := now,
            metadata := { priority := if p = "" then none else some p,
                          retry_count := none, last_failed_at := none } }
        syncJsonToDbLoop rest (models ++ [newModel]) (next_id + 1) now
          { acc with added := acc.added + 1 }
      | some db_model =>
        let json_status := jsonGet jm.status "pending"
        let db_status := db_model.status
        if !truthyStatus jm then
          syncJsonToDbLoop rest models next_id now
            { acc with skipped := acc.skipped + 1 }
        else if (db_status = "pending" || db_status = "failed") && jm.force_reset then
          let p := jsonGet jm.priority "medium"
          let models' := models.map (fun m =>
            if m.id = db_model.id then
              { m with
                status := "pending",
                metadata := { m.metadata with
                  priority := if p = "" then m.metadata.priority else some p } }
            else m)
          syncJsonToDbLoop rest models' next_id now
            { acc with updated := acc.updated + 1 }
        else if db_status = "completed" || db_status = "downloading" then
          syncJsonToDbLoop rest models next_id now
            { acc with skipped := acc.skipped + 1 }
        else if (db_status = "pending" || db_status = "failed") &&
            json_status = "pending" then
          syncJsonToDbLoop rest models next_id now
            { acc with skipped := acc.skipped + 1 }
        else
          syncJsonToDbLoop rest models next_id now
            { acc with skipped := acc.skipped + 1 }

/-- Embedding of `ModelSyncService.sync_models_from_json_to_db` (the
external→store direction): creates missing models, force-resets
`pending`/`failed` models when asked, otherwise lets the store status take
precedence. -/
def sync_models_from_json_to_db (json_models : List JsonModel)
    (models : List Model) (next_id : Nat) (now : Int) :
    List Model × Nat × JsonToDbResult :=
  syncJsonToDbLoop json_models models next_id now
    ⟨json_models.length, 0, 0, 0, []⟩

/-- The `db_status_map` dict of `sync_db_status_to_json`. -/
def dbStatusMap (models : List Model) (name : String) : Option String :=
  (get_model_by_name models name).map (fun m => m.status)

/-- The per-model loop of `sync_db_status_to_json`: entries with a falsy name
are dropped (`continue` skips the `updated_models.append`); for the rest the
JSON status is overwritten wherever a (truthy) DB status differs. -/
def syncDbToJsonLoop (models : List Model) :
    List JsonModel → DbToJsonResult → List JsonModel →
      DbToJsonResult × List JsonModel
  | [], acc, processed => (acc, processed)
  | jm :: rest, acc, processed =>
    if jm.name = "" then
      syncDbToJsonLoop models rest acc processed
    else
      let json_status := jsonGet jm.status "pending"
      match dbStatusMap models jm.name with
      | some db_status =>
        if db_status ≠ "" && db_status ≠ json_status then
          syncDbToJsonLoop models rest { acc with updated := acc.updated + 1 }
            (processed ++ [{ jm with status := some db_status }])
        else
          syncDbToJsonLoop models rest { acc with unchanged := acc.unchanged + 1 }
            (processed ++ [jm])
      | none =>
        syncDbToJsonLoop models rest { acc with unchanged := acc.unchanged + 1 }
          (processed ++ [jm])

/-- Embedding of `ModelSyncService.sync_db_status_to_json` (the
store→external direction).  The rewritten list is saved back to the file only
when at least one status changed (`if sync_results["updated"] > 0`), so on
zero updates the external list keeps its original contents. -/
def sync_db_status_to_json (models : List Model) (json_models : List JsonModel) :
    DbToJsonResult × List JsonModel :=
  let (acc, processed) :=
    syncDbToJsonLoop models json_models ⟨json_models.length, 0, 0, []⟩ []
  (acc, if acc.updated > 0 then processed else json_models)

/-- Embedding of `ModelSyncService.get_models_needing_sync`: the (name,
json_status, db_status, priority) tuples whose statuses differ. -/
def get_models_needing_sync (models : List Model) (json_models : List JsonModel) :
    List (String × String × String × String) :=
  json_models.filterMap (fun jm =>
    if jm.name = "" then none
    else
      match dbStatusMap models jm.name with
      | some db_status =>
        if db_status ≠ "" && db_status ≠ jsonGet jm.status "pending" then
          some (jm.name, jsonGet jm.status "pending", db_status,
            jsonGet jm.priority "medium")
        else none
      | none => none)

/-- The result record of `ModelSyncService.full_sync`. -/
structure FullSyncResult where
  json_to_db : JsonToDbResult
  db_to_json : DbToJsonResult
  remaining_differences : Nat
  success : Bool
deriving DecidableEq, Repr

/-- Embedding of `ModelSyncService.full_sync`: step 1 is
`sync_models_from_json_to_db` (external→store), step 2 is
`sync_db_status_to_json` (store→external) on the stores left by step 1, step 3
counts the remaining differences on the final state. -/
def full_sync (models : List Model) (json_models : List JsonModel)
    (next_id : Nat) (now : Int) :
    FullSyncResult × List Model × List JsonModel :=
  let step1 := sync_models_from_json_to_db json_models models next_id now
  let models1 := step1.1
  let r1 := step1.2.2
  let step2 := sync_db_status_to_json models1 json_models
  let r2 := step2.1
  let json1 := step2.2
  ({ json_to_db := r1, db_to_json := r2,
     remaining_differences := (get_models_needing_sync models1 json1).length,
     success := r1.errors.isEmpty && r2.errors.isEmpty }, models1, json1)

/-- A variant of `full_sync` that follows the claim's words instead of the
source: it runs the store→external direction first and the external→store
direction second, with the same three components otherwise.  It exists only to
be compared against `full_sync`. -/
def full_sync_claimOrder (models : List Model) (json_models : List JsonModel)
    (next_id : Nat) (now : Int) :
    FullSyncResult × List Model × List JsonModel :=
  let step1 := sync_db_status_to_json models json_models
  let r2 := step1.1
  let json1 := step1.2
  let step2 := sync_models_from_json_to_db json1 models next_id now
  let models1 := step2.1
  let r1 := step2.2.2
  ({ json_to_db := r1, db_to_json := r2,
     remaining_differences := (get_models_needing_sync models1 json1).length,
     success := r1.errors.isEmpty && r2.errors.isEmpty }, models1, json1)

/-- C9 is false as stated: `full_sync` runs external→store first, not
store→external.  The two orders are observably different: for a store holding
model `"m"` with status `failed` and an external record `"m"` of status
`failed` with `force_reset`, the code's order force-resets the model to
`pending` first, so the store→external pass rewrites the external status and
no difference remains (`remaining_differences = 0`); in the claimed order the
store→external pass sees no difference and the final states disagree
(`remaining_differences = 1`). -/
theorem C9_full_sync_order_counterexample :
    (full_sync [⟨1, "m", "failed", 0, ⟨none, none, none⟩⟩]
        [⟨"m", some "failed", some true, none, true⟩] 2 0).1.remaining_differences = 0 ∧
      (full_sync_claimOrder [⟨1, "m", "failed", 0, ⟨none, none, none⟩⟩]
        [⟨"m", some "failed", some true, none, true⟩] 2 0).1.remaining_differences = 1 ∧
      full_sync [⟨1, "m", "failed", 0, ⟨none, none, none⟩⟩]
          [⟨"m", some "failed", some true, none, true⟩] 2 0 ≠
        full_sync_claimOrder [⟨1, "m", "failed", 0, ⟨none, none, none⟩⟩]
          [⟨"m", some "failed", some true, none, true⟩] 2 0 := by
  refine ⟨rfl, rfl, ?_⟩
  decide

/-- C9 (amended): `full_sync` runs the external→store direction first and the
store→external direction second, and returns the two directions' counts
(added/updated/skipped and updated/unchanged) together with the count of
remaining differences computed on the final state.  The order is visible in
the result: for any non-empty model name `n`, syncing a store `[n: failed]`
against an external list `[n: failed, force_reset]` reports the force-reset as
`updated = 1` in the external→store counters, reports `updated = 1` in the
store→external counters (the external status is rewritten to the post-reset
store status `pending`), and leaves `remaining_differences = 0` — possible
only because external→store ran first. -/
theorem C9_full_sync_runs_json_to_db_first (n : String) (hn : n ≠ "") :
    (full_sync [⟨1, n, "failed", 0, ⟨none, none, none⟩⟩]
        [⟨n, some "failed", some true, none, true⟩] 2 0).1.json_to_db.updated = 1 ∧
      (full_sync [⟨1, n, "failed", 0, ⟨none, none, none⟩⟩]
        [⟨n, some "failed", some true, none, true⟩] 2 0).1.db_to_json.updated = 1 ∧
      (full_sync [⟨1, n, "failed", 0, ⟨none, none, none⟩⟩]
        [⟨n, some "failed", some true, none, true⟩] 2 0).1.remaining_differences = 0 ∧
      (full_sync [⟨1, n, "failed", 0, ⟨none, none, none⟩⟩]
        [⟨n, some "failed", some true, none, true⟩] 2 0).2.2.map
          (fun jm => jm.status) = [some "pending"] := by
  have hfind : get_model_by_name [⟨1, n, "failed", 0, ⟨none, none, none⟩⟩] n =
      some ⟨1, n, "failed", 0, ⟨none, none, none⟩⟩ := by
    simp [get_model_by_name]
  refine ⟨?_, ?_, ?_, ?_⟩ <;>
    simp [full_sync, sync_models_from_json_to_db, syncJsonToDbLoop, hn, hfind,
      get_model_by_name, truthyStatus, jsonGet, sync_db_status_to_json,
      syncDbToJsonLoop, dbStatusMap, get_models_needing_sync]

/-- Witness for C9 (amended) at the concrete name `"m"`. -/
theorem C9_full_sync_runs_json_to_db_first_witness :
    (full_sync [⟨1, "m", "failed", 0, ⟨none, none, none⟩⟩]
        [⟨"m", some "failed", some true, none, true⟩] 2 0).1.json_to_db.updated = 1 ∧
      (full_sync [⟨1, "m", "failed", 0, ⟨none, none, none⟩⟩]
        [⟨"m", some "failed", some true, none, true⟩] 2 0).1.db_to_json.updated = 1 ∧
      (full_sync [⟨1, "m", "failed", 0, ⟨none, none, none⟩⟩]
        [⟨"m", some "failed", some true, none, true⟩] 2 0).1.remaining_differences = 0 ∧
      (full_sync [⟨1, "m", "failed", 0, ⟨none, none, none⟩⟩]
        [⟨"m", some "failed", some true, none, true⟩] 2 0).2.2.map
          (fun jm => jm.status) = [some "pending"] :=
  C9_full_sync_runs_json_to_db_first "m" (by decide)

end HFDownloader
